import Mathlib

/-!
Verification of the response-formatting, truncation, time-range, request-composition
and error-translation logic of the MCP adapter servers (asana_mcp, google_calendar_mcp,
google_places_mcp, google_maps_mcp, perplexity_mcp).

Python strings are modelled as `List Char` (`Str`), dictionaries built by the code as
association lists in insertion order, raised exceptions as the inductive `PyException`,
and the network layer as an explicit oracle argument: each tool-run function receives
the would-be result of each HTTP call it may make and returns, besides the output
string, the list of HTTP requests it actually issued, in order.
-/

/-- String model: a Python `str` as a list of characters. -/
abbrev Str := List Char

/-- Decimal representation of a natural number, as produced by Python str()/f-strings. -/
def natStr (n : Nat) : Str := (Nat.repr n).data

/-- Decimal representation of an integer. -/
def intStr (n : Int) : Str :=
  if n < 0 then '-' :: natStr n.natAbs else natStr n.natAbs

/-- Python truthiness of an optional string: `None` and the empty string are falsy. -/
def truthy : Option Str → Bool
  | none => false
  | some s => !s.isEmpty

/-- Python `str(x)` for an optional value appearing in an f-string: `None` prints as "None". -/
def optRepr : Option Str → Str
  | none => "None".data
  | some s => s

/-- Python `str.strip()`: remove leading and trailing whitespace. -/
def pyStrip (s : Str) : Str :=
  ((s.dropWhile Char.isWhitespace).reverse.dropWhile Char.isWhitespace).reverse

/-- Python `sep.join(parts)`. -/
def pyJoin (sep : Str) (parts : List Str) : Str :=
  (parts.intersperse sep).flatten

/-- Python `s.split(sep)` for a one-character separator: always returns at least one part. -/
def pySplit (sep : Char) : Str → List Str
  | [] => [[]]
  | c :: r =>
    if c = sep then [] :: pySplit sep r
    else
      match pySplit sep r with
      | p :: ps => (c :: p) :: ps
      | [] => [[c]]

/-- Containment of one string inside another (substring occurrence). -/
def containsSeg (needle hay : Str) : Prop := ∃ s t, hay = s ++ needle ++ t

/-- JSON values, as manipulated by the adapters when building request bodies and
JSON-format responses. `num` is an integer: the embedded formatters only serialize
integer counts. -/
inductive JVal where
  | null
  | boolean (b : Bool)
  | str (s : Str)
  | num (n : Int)
  | arr (xs : List JVal)
  | obj (kvs : List (Str × JVal))

instance : Inhabited JVal := ⟨JVal.null⟩

/-- Lowercase hexadecimal digit. -/
def hexDigit (n : Nat) : Char :=
  if n < 10 then Char.ofNat (48 + n) else Char.ofNat (87 + n)

/-- A JSON `\uXXXX` escape for a code unit. -/
def uEscape (n : Nat) : Str :=
  '\\' :: 'u' :: [hexDigit (n / 4096 % 16), hexDigit (n / 256 % 16),
    hexDigit (n / 16 % 16), hexDigit (n % 16)]

/-- Escape one character the way Python json.dumps (ensure_ascii=True) does. -/
def jsonEscapeChar (c : Char) : Str :=
  if c = '"' then "\\\"".data
  else if c = '\\' then "\\\\".data
  else if c = '\n' then "\\n".data
  else if c = '\t' then "\\t".data
  else if c = '\r' then "\\r".data
  else if c = '\x08' then "\\b".data
  else if c = '\x0c' then "\\f".data
  else if c.toNat < 32 ∨ 126 < c.toNat then
    if c.toNat ≤ 65535 then uEscape c.toNat
    else uEscape (55296 + (c.toNat - 65536) / 1024) ++ uEscape (56320 + (c.toNat - 65536) % 1024)
  else [c]

/-- A JSON-quoted string. -/
def jsonQuote (s : Str) : Str :=
  '"' :: (s.map jsonEscapeChar).flatten ++ ['"']

/-- Indentation: `n` spaces. -/
def spaces (n : Nat) : Str := List.replicate n ' '

mutual

/-- Serialization of a JSON value as Python `json.dumps(v, indent=2)` renders it,
`ind` being the indentation level of the surrounding container. -/
def jsonDumpsAt : JVal → Nat → Str
  | .null, _ => "null".data
  | .boolean true, _ => "true".data
  | .boolean false, _ => "false".data
  | .str s, _ => jsonQuote s
  | .num n, _ => intStr n
  | .arr [], _ => "[]".data
  | .arr (x :: xs), ind =>
    "[\n".data ++
      pyJoin ",\n".data ((jsonDumpsItems (x :: xs) (ind + 2)).map (fun it => spaces (ind + 2) ++ it)) ++
      "\n".data ++ spaces ind ++ "]".data
  | .obj [], _ => "\x7b\x7d".data
  | .obj (kv :: kvs), ind =>
    "\x7b\n".data ++
      pyJoin ",\n".data ((jsonDumpsPairs (kv :: kvs) (ind + 2)).map (fun it => spaces (ind + 2) ++ it)) ++
      "\n".data ++ spaces ind ++ "\x7d".data

/-- Serialization of array elements at a given indentation level. -/
def jsonDumpsItems : List JVal → Nat → List Str
  | [], _ => []
  | x :: xs, ind => jsonDumpsAt x ind :: jsonDumpsItems xs ind

/-- Serialization of object entries at a given indentation level. -/
def jsonDumpsPairs : List (Str × JVal) → Nat → List Str
  | [], _ => []
  | (k, v) :: kvs, ind => (jsonQuote k ++ ": ".data ++ jsonDumpsAt v ind) :: jsonDumpsPairs kvs ind

end

/-- Python `json.dumps(v, indent=2)`. -/
def jsonDumps (v : JVal) : Str := jsonDumpsAt v 0

/-- Exceptions that can cross the internal layers of the adapters: `ValueError` (configuration),
`httpx.HTTPStatusError` (carrying status code and response body text),
`httpx.TimeoutException`, and any other exception (carrying its type name and text). -/
inductive PyException where
  | valueError (msg : Str)
  | httpStatusError (status : Nat) (body : Str)
  | timeoutException
  | otherExc (name : Str) (msg : Str)
deriving DecidableEq

/-- An outbound HTTP request as composed by a tool: method, endpoint path relative to the
base URL of the adapter, and optional JSON body. Query parameters are not modelled. -/
structure HttpRequest where
  method : Str
  endpoint : Str
  body : Option JVal

/-- Output format selector, defined identically in each adapter. -/
inductive ResponseFormat where
  | markdown
  | json
deriving DecidableEq

/-- Maximum response size in characters; the constant `CHARACTER_LIMIT = 25000` defined
identically in each adapter. -/
def CHARACTER_LIMIT : Nat := 25000

/-- One `if x is not None: body[k] = f(x)` step of a partial-update body builder: the
entry is present exactly when the optional input is set. -/
def optField {α : Type} (k : Str) (f : α → JVal) : Option α → List (Str × JVal)
  | some v => [(k, f v)]
  | none => []

namespace Asana

/-- Error message raised by `_get_api_headers` when ASANA_ACCESS_TOKEN is unset. -/
def tokenErrorMsg : Str :=
  ("ASANA_ACCESS_TOKEN environment variable not set. " ++
   "Please set it with a valid Personal Access Token.").data

/-- Embedding of asana_mcp `_handle_api_error`: consistent error formatting across all
tools, by exception kind and HTTP status. -/
def handle_api_error : PyException → Str
  | .valueError m => "Configuration Error: ".data ++ m
  | .httpStatusError s b =>
    if s = 400 then "Error: Bad request. ".data ++ b
    else if s = 401 then "Error: Authentication failed. Please check your access token.".data
    else if s = 403 then "Error: Permission denied. You don\x27t have access to this resource.".data
    else if s = 404 then "Error: Resource not found. Please check the ID.".data
    else if s = 429 then "Error: Rate limit exceeded. Please wait before making more requests.".data
    else "Error: API request failed with status ".data ++ natStr s ++ ": ".data ++ b
  | .timeoutException => "Error: Request timed out. Please try again.".data
  | .otherExc n m => "Error: Unexpected error occurred: ".data ++ n ++ ": ".data ++ m

/-- An Asana task record, projected onto the fields requested via opt_fields
(name, notes, completed, completed_at, due_on, assignee.name, projects.name, tags.name)
plus the always-returned gid. `Option` marks fields that may be absent; `assignee` is an
optional sub-record whose name may itself be absent. -/
structure AsanaTask where
  gid : Option Str
  name : Option Str
  notes : Option Str
  completed : Bool
  completed_at : Option Str
  due_on : Option Str
  assignee : Option (Option Str)
  projects : List (Option Str)
  tags : List (Option Str)

/-- Projection of a task back to the JSON value serialized by the JSON response format. -/
def taskToJVal (t : AsanaTask) : JVal :=
  .obj [("gid".data, match t.gid with | none => .null | some g => .str g),
        ("name".data, match t.name with | none => .null | some n => .str n),
        ("notes".data, match t.notes with | none => .null | some n => .str n),
        ("completed".data, .boolean t.completed),
        ("completed_at".data, match t.completed_at with | none => .null | some c => .str c),
        ("due_on".data, match t.due_on with | none => .null | some d => .str d),
        ("assignee".data, match t.assignee with
          | none => .null
          | some a => .obj [("name".data, match a with | none => .null | some n => .str n)]),
        ("projects".data, .arr (t.projects.map (fun p =>
          .obj [("name".data, match p with | none => .null | some n => .str n)]))),
        ("tags".data, .arr (t.tags.map (fun p =>
          .obj [("name".data, match p with | none => .null | some n => .str n)])))]

/-- Embedding of `_format_task_markdown`: format a single task in Markdown. -/
def format_task_markdown (task : AsanaTask) : Str :=
  let name := task.name.getD "(No name)".data
  let status_icon := if task.completed then "✅".data else "⭕".data
  let lines : List Str :=
    ["## ".data ++ status_icon ++ " ".data ++ name,
     "**ID**: `".data ++ optRepr task.gid ++ "`".data,
     (match task.assignee with
      | some a => "**Assigned to**: ".data ++ a.getD "Unknown".data
      | none => "**Assigned to**: Unassigned".data)]
    ++ (match task.due_on with
        | some d => if d.isEmpty then [] else ["**Due**: ".data ++ d]
        | none => [])
    ++ (if task.completed then
          ["**Completed**: ".data ++ task.completed_at.getD "Unknown".data]
        else [])
    ++ (match task.notes with
        | some n =>
          if !n.isEmpty && !(pyStrip n).isEmpty then
            ["**Notes**: ".data ++
              (if 200 < n.length then n.take 200 ++ "...".data else n)]
          else []
        | none => [])
    ++ (if task.projects.isEmpty then [] else
          ["**Projects**: ".data ++
            pyJoin ", ".data ((task.projects.take 3).map (fun p => p.getD "Unknown".data))])
    ++ (if task.tags.isEmpty then [] else
          ["**Tags**: ".data ++
            pyJoin ", ".data ((task.tags.take 5).map (fun t => t.getD "Unknown".data))])
    ++ [[]]
  pyJoin "\n".data lines

/-- Embedding of `_format_tasks_response`: format a task list in the requested format. -/
def format_tasks_response (tasks : List AsanaTask) (response_format : ResponseFormat)
    (title : Str) : Str :=
  match response_format with
  | .markdown =>
    let header : List Str :=
      ["# ".data ++ title, [], "Found ".data ++ natStr tasks.length ++ " task(s)".data, []]
    let body : List Str :=
      if tasks.isEmpty then ["No tasks found.".data] else tasks.map format_task_markdown
    pyJoin "\n".data (header ++ body)
  | .json =>
    jsonDumps (.obj [("count".data, .num tasks.length), ("tasks".data, .arr (tasks.map taskToJVal))])

/-- Input model for asana_list_tasks (validated fields relevant to request composition). -/
structure ListTasksInput where
  workspace_gid : Option Str
  assignee : Option Str
  project_gid : Option Str
  completed_since : Option Str
  limit : Nat
  response_format : ResponseFormat

/-- Endpoint selection in asana_list_tasks: project tasks, workspace search, or user tasks. -/
def list_tasks_endpoint (p : ListTasksInput) : Str :=
  if truthy p.project_gid then "projects/".data ++ p.project_gid.getD [] ++ "/tasks".data
  else if truthy p.workspace_gid then
    "workspaces/".data ++ p.workspace_gid.getD [] ++ "/tasks/search".data
  else "tasks".data

/-- Truncation note appended by asana_list_tasks. -/
def tasksNote (shown total : Nat) : Str :=
  "\n\n**Note**: Showing ".data ++ natStr shown ++ " of ".data ++ natStr total ++ " tasks.".data

/-- Embedding of the asana_list_tasks tool body. `token` is the ASANA_ACCESS_TOKEN
environment variable (checked inside `_make_api_request` before the request is sent);
`fetch` is the would-be outcome of the single API call, already unwrapped to the task
list. Returns the output string and the requests issued. -/
def asana_list_tasks_run (p : ListTasksInput) (token : Option Str)
    (fetch : Except PyException (List AsanaTask)) : Str × List HttpRequest :=
  if !truthy token then (handle_api_error (.valueError tokenErrorMsg), [])
  else
    let req : HttpRequest := ⟨"GET".data, list_tasks_endpoint p, none⟩
    match fetch with
    | .error e => (handle_api_error e, [req])
    | .ok tasks =>
      if tasks.isEmpty then ("No tasks found.".data, [req])
      else
        let result := format_tasks_response tasks p.response_format "My Tasks".data
        if CHARACTER_LIMIT < result.length then
          let truncated_tasks := tasks.take (max 1 (tasks.length / 2))
          (format_tasks_response truncated_tasks p.response_format "My Tasks (Truncated)".data
            ++ tasksNote truncated_tasks.length tasks.length, [req])
        else (result, [req])

/-- Input model for asana_update_task. -/
structure UpdateTaskInput where
  task_gid : Str
  name : Option Str
  notes : Option Str
  assignee : Option Str
  due_on : Option Str
  completed : Option Bool

/-- The inner `update_data["data"]` dictionary built by asana_update_task: only fields
that are not None are included, in source order. -/
def update_task_fields (p : UpdateTaskInput) : List (Str × JVal) :=
  optField "name".data JVal.str p.name
  ++ optField "notes".data JVal.str p.notes
  ++ optField "assignee".data JVal.str p.assignee
  ++ optField "due_on".data JVal.str p.due_on
  ++ optField "completed".data JVal.boolean p.completed

/-- Embedding of the asana_update_task tool body. `fetch` is the would-be outcome of the
PUT call, unwrapped to the updated task. -/
def asana_update_task_run (p : UpdateTaskInput) (token : Option Str)
    (fetch : Except PyException AsanaTask) : Str × List HttpRequest :=
  let fields := update_task_fields p
  if fields.isEmpty then
    ("Error: No fields to update. Specify at least one field.".data, [])
  else if !truthy token then (handle_api_error (.valueError tokenErrorMsg), [])
  else
    let req : HttpRequest :=
      ⟨"PUT".data, "tasks/".data ++ p.task_gid, some (.obj [("data".data, .obj fields)])⟩
    match fetch with
    | .error e => (handle_api_error e, [req])
    | .ok task =>
      let lines : List Str :=
        ["# Task Updated Successfully".data, [],
         "**Task ID**: `".data ++ optRepr task.gid ++ "`".data,
         "**Name**: ".data ++ optRepr task.name]
        ++ (if task.completed then ["**Status**: ✅ Completed".data]
            else ["**Status**: ⭕ Incomplete".data])
      (pyJoin "\n".data lines, [req])

end Asana

namespace GCal

/-- A Python `datetime` as used by the calendar adapter: proleptic Gregorian fields plus
an optional fixed UTC offset in minutes (the adapter only ever constructs UTC-aware
values, offset 0). -/
structure PyDateTime where
  year : Nat
  month : Nat
  day : Nat
  hour : Nat
  minute : Nat
  second : Nat
  microsecond : Nat
  offsetMinutes : Option Int
deriving DecidableEq

/-- Gregorian leap-year rule. -/
def isLeapYear (y : Nat) : Bool := y % 4 = 0 && (y % 100 ≠ 0 || y % 400 = 0)

/-- Number of days in a month of a given year. -/
def daysInMonth (y m : Nat) : Nat :=
  if m = 2 then (if isLeapYear y then 29 else 28)
  else if m = 4 ∨ m = 6 ∨ m = 9 ∨ m = 11 then 30
  else 31

/-- The calendar day after a datetime, keeping the time-of-day fields. -/
def nextDayD (d : PyDateTime) : PyDateTime :=
  if d.day < daysInMonth d.year d.month then { d with day := d.day + 1 }
  else if d.month < 12 then { d with month := d.month + 1, day := 1 }
  else { d with year := d.year + 1, month := 1, day := 1 }

/-- Python `d + timedelta(days=n)` for a UTC-aware datetime: advance `n` calendar days. -/
def addDays (d : PyDateTime) : Nat → PyDateTime
  | 0 => d
  | n + 1 => nextDayD (addDays d n)

/-- Python `d.replace(hour=0, minute=0, second=0, microsecond=0)`. -/
def replaceTime0 (d : PyDateTime) : PyDateTime :=
  { d with hour := 0, minute := 0, second := 0, microsecond := 0 }

/-- Zero-padded decimal representation of width (at least) `w`. -/
def pad (w n : Nat) : Str := List.replicate (w - (natStr n).length) '0' ++ natStr n

/-- Python `datetime.isoformat()`: date, 'T', time, fractional seconds when nonzero,
and the UTC offset when the value is timezone-aware. -/
def isoformat (d : PyDateTime) : Str :=
  pad 4 d.year ++ "-".data ++ pad 2 d.month ++ "-".data ++ pad 2 d.day ++ "T".data ++
  pad 2 d.hour ++ ":".data ++ pad 2 d.minute ++ ":".data ++ pad 2 d.second ++
  (if d.microsecond = 0 then [] else ".".data ++ pad 6 d.microsecond) ++
  (match d.offsetMinutes with
   | none => []
   | some m =>
     (if m < 0 then "-".data else "+".data) ++
       pad 2 (m.natAbs / 60) ++ ":".data ++ pad 2 (m.natAbs % 60))

/-- Python dt.strftime with the pattern %Y-%m-%d %H:%M. -/
def strftimeYmdHM (d : PyDateTime) : Str :=
  pad 4 d.year ++ "-".data ++ pad 2 d.month ++ "-".data ++ pad 2 d.day ++ " ".data ++
  pad 2 d.hour ++ ":".data ++ pad 2 d.minute

/-- Python dt.strftime with the pattern %H:%M. -/
def strftimeHM (d : PyDateTime) : Str := pad 2 d.hour ++ ":".data ++ pad 2 d.minute

/-- Numeric value of a run of decimal digits. -/
def digitsToNat (ds : Str) : Nat := ds.foldl (fun acc c => acc * 10 + (c.toNat - 48)) 0

/-- Consume exactly `k` decimal digits. -/
def takeDigits (s : Str) (k : Nat) : Option (Nat × Str) :=
  let ds := s.take k
  if ds.length = k && ds.all Char.isDigit then some (digitsToNat ds, s.drop k) else none

/-- Consume one expected character. -/
def expectChar (c : Char) : Str → Option Str
  | x :: r => if x = c then some r else none
  | [] => none

/-- Consume a fractional-second part (1 to 6 digits) scaled to microseconds. -/
def takeFrac (s : Str) : Option (Nat × Str) :=
  let ds := s.takeWhile Char.isDigit
  if 1 ≤ ds.length && ds.length ≤ 6 then
    some (digitsToNat ds * 10 ^ (6 - ds.length), s.dropWhile Char.isDigit)
  else none

/-- Consume a trailing UTC offset `±HH:MM` (or nothing, for a naive datetime). -/
def takeOffset : Str → Option (Option Int)
  | [] => some none
  | c :: r =>
    if c = '+' ∨ c = '-' then
      match takeDigits r 2 with
      | some (hh, r1) =>
        match expectChar ':' r1 with
        | some r2 =>
          match takeDigits r2 2 with
          | some (mm, r3) =>
            if r3.isEmpty then
              some (some ((if c = '-' then (-1 : Int) else 1) * (hh * 60 + mm)))
            else none
          | none => none
        | none => none
      | none => none
    else none

/-- Python `datetime.fromisoformat` on the common subset `YYYY-MM-DD[THH:MM[:SS[.ffffff]]][±HH:MM]`
used by the adapter (underscores, week dates and bare offsets without minutes are not modelled). -/
def fromisoformat (s : Str) : Option PyDateTime := do
  let (y, r1) ← takeDigits s 4
  let r2 ← expectChar '-' r1
  let (mo, r3) ← takeDigits r2 2
  let r4 ← expectChar '-' r3
  let (d, r5) ← takeDigits r4 2
  match r5 with
  | [] => pure ⟨y, mo, d, 0, 0, 0, 0, none⟩
  | c :: rest =>
    if c = 'T' ∨ c = ' ' then do
      let (h, t1) ← takeDigits rest 2
      let t2 ← expectChar ':' t1
      let (mi, t3) ← takeDigits t2 2
      match t3 with
      | ':' :: t4 => do
        let (sec, t5) ← takeDigits t4 2
        match t5 with
        | '.' :: t6 => do
          let (us, t7) ← takeFrac t6
          let off ← takeOffset t7
          pure ⟨y, mo, d, h, mi, sec, us, off⟩
        | t6 => do
          let off ← takeOffset t6
          pure ⟨y, mo, d, h, mi, sec, 0, off⟩
      | t4 => do
        let off ← takeOffset t4
        pure ⟨y, mo, d, h, mi, 0, 0, off⟩
    else none

/-- Python `s.replace('Z', '+00:00')`. -/
def replaceZ (s : Str) : Str :=
  (s.map (fun c => if c = 'Z' then "+00:00".data else [c])).flatten

/-- Predefined time ranges for listing events. -/
inductive TimeRange where
  | today
  | tomorrow
  | this_week
  | next_week
  | this_month
  | custom
deriving DecidableEq

/-- String value of the enum. -/
def timeRangeValue : TimeRange → Str
  | .today => "today".data
  | .tomorrow => "tomorrow".data
  | .this_week => "this_week".data
  | .next_week => "next_week".data
  | .this_month => "this_month".data
  | .custom => "custom".data

/-- Error message raised for a CUSTOM range missing a bound. -/
def customBoundsMsg : Str :=
  "For CUSTOM time range, both start_date and end_date must be provided".data

/-- Embedding of `_get_time_range_bounds`: convert a time-range selector (and, for
custom, the explicit bounds) to a pair of ISO datetime strings, raising ValueError
for a custom range with a missing bound or an unparsable date. -/
def get_time_range_bounds (time_range : TimeRange) (now : PyDateTime)
    (start_date end_date : Option Str) : Except PyException (Str × Str) :=
  match time_range with
  | .today =>
    let start := replaceTime0 now
    .ok (isoformat start, isoformat (addDays start 1))
  | .tomorrow =>
    let start := replaceTime0 (addDays now 1)
    .ok (isoformat start, isoformat (addDays start 1))
  | .this_week =>
    let start := replaceTime0 now
    .ok (isoformat start, isoformat (addDays start 7))
  | .next_week =>
    let start := replaceTime0 (addDays now 7)
    .ok (isoformat start, isoformat (addDays start 7))
  | .this_month =>
    let start : PyDateTime := ⟨now.year, now.month, 1, 0, 0, 0, 0, now.offsetMinutes⟩
    let stop : PyDateTime :=
      if now.month = 12 then ⟨now.year + 1, 1, 1, 0, 0, 0, 0, now.offsetMinutes⟩
      else ⟨now.year, now.month + 1, 1, 0, 0, 0, 0, now.offsetMinutes⟩
    .ok (isoformat start, isoformat stop)
  | .custom =>
    if !truthy start_date || !truthy end_date then
      .error (.valueError customBoundsMsg)
    else
      match fromisoformat (replaceZ (start_date.getD [])),
            fromisoformat (replaceZ (end_date.getD [])) with
      | some s, some e => .ok (isoformat s, isoformat e)
      | _, _ => .error (.valueError "Invalid isoformat string".data)

/-- Reference definition, from the spec: midnight UTC of the given day. -/
def midnightUTC (d : PyDateTime) : PyDateTime := replaceTime0 d

/-- Reference definition, from the spec: first of the current month at 00:00 UTC. -/
def monthStartUTC (d : PyDateTime) : PyDateTime :=
  ⟨d.year, d.month, 1, 0, 0, 0, 0, d.offsetMinutes⟩

/-- Reference definition, from the spec: first of the next month at 00:00 UTC, with
year rollover at December to January. -/
def nextMonthStartUTC (d : PyDateTime) : PyDateTime :=
  if d.month = 12 then ⟨d.year + 1, 1, 1, 0, 0, 0, 0, d.offsetMinutes⟩
  else ⟨d.year, d.month + 1, 1, 0, 0, 0, 0, d.offsetMinutes⟩

/-- Reference intervals stated by the spec for the symbolic time ranges: today is
[midnight today, +1 day), tomorrow is [midnight tomorrow, +1 day), this_week is the
rolling window [midnight today, +7 days), next_week is [midnight of today+7days,
+7 days), this_month is [month start, next month start). -/
def spec_time_range : TimeRange → PyDateTime → Option (PyDateTime × PyDateTime)
  | .today, now => some (midnightUTC now, addDays (midnightUTC now) 1)
  | .tomorrow, now => some (addDays (midnightUTC now) 1, addDays (midnightUTC now) 2)
  | .this_week, now => some (midnightUTC now, addDays (midnightUTC now) 7)
  | .next_week, now => some (addDays (midnightUTC now) 7, addDays (midnightUTC now) 14)
  | .this_month, now => some (monthStartUTC now, nextMonthStartUTC now)
  | .custom, _ => none

end GCal

namespace GCal

/-- Error message raised by the calendar `_get_api_headers` when the token is unset. -/
def tokenErrorMsg : Str :=
  ("GOOGLE_CALENDAR_ACCESS_TOKEN environment variable not set. " ++
   "Please set it with a valid OAuth2 access token.").data

/-- Embedding of google_calendar_mcp `_handle_api_error`. -/
def handle_api_error : PyException → Str
  | .valueError m => "Configuration Error: ".data ++ m
  | .httpStatusError s b =>
    if s = 400 then "Error: Bad request. ".data ++ b
    else if s = 401 then "Error: Authentication failed. Please check your access token.".data
    else if s = 403 then "Error: Permission denied. You don\x27t have access to this calendar.".data
    else if s = 404 then "Error: Event or calendar not found. Please check the ID.".data
    else if s = 429 then "Error: Rate limit exceeded. Please wait before making more requests.".data
    else "Error: API request failed with status ".data ++ natStr s ++ ": ".data ++ b
  | .timeoutException => "Error: Request timed out. Please try again.".data
  | .otherExc n m => "Error: Unexpected error occurred: ".data ++ n ++ ": ".data ++ m

/-- Start and end times of a well-formed calendar event: either both are timed
(dateTime entries, carried here already parsed, with their optional timeZone entries),
or both are all-day (date entries), or absent. -/
inductive GEventTimes where
  | timed (startDT endDT : PyDateTime) (startTZ endTZ : Option Str)
  | allDay (startDate endDate : Str)
  | unspecified

/-- An event attendee as read by the formatter. -/
structure GAttendee where
  displayName : Option Str
  email : Option Str
  responseStatus : Option Str

/-- A calendar event, projected onto the fields the adapter reads. -/
structure GEvent where
  summary : Option Str
  time : GEventTimes
  id : Option Str
  status : Option Str
  description : Option Str
  location : Option Str
  attendees : List GAttendee
  hangoutLink : Option Str
  htmlLink : Option Str

/-- Projection of an event back to the JSON value serialized by the JSON response format. -/
def eventToJVal (e : GEvent) : JVal :=
  .obj ([("summary".data, match e.summary with | none => .null | some s => .str s)]
    ++ (match e.time with
        | .timed s f stz etz =>
          [("start".data, .obj ([("dateTime".data, JVal.str (isoformat s))]
              ++ (match stz with | none => [] | some z => [("timeZone".data, JVal.str z)]))),
           ("end".data, .obj ([("dateTime".data, JVal.str (isoformat f))]
              ++ (match etz with | none => [] | some z => [("timeZone".data, JVal.str z)])))]
        | .allDay sd ed =>
          [("start".data, .obj [("date".data, JVal.str sd)]),
           ("end".data, .obj [("date".data, JVal.str ed)])]
        | .unspecified => [])
    ++ [("id".data, match e.id with | none => .null | some s => .str s),
        ("status".data, match e.status with | none => .null | some s => .str s),
        ("description".data, match e.description with | none => .null | some s => .str s),
        ("location".data, match e.location with | none => .null | some s => .str s),
        ("attendees".data, .arr (e.attendees.map (fun a =>
          .obj [("displayName".data, match a.displayName with | none => .null | some s => .str s),
                ("email".data, match a.email with | none => .null | some s => .str s),
                ("responseStatus".data, match a.responseStatus with | none => .null | some s => .str s)]))),
        ("hangoutLink".data, match e.hangoutLink with | none => .null | some s => .str s),
        ("htmlLink".data, match e.htmlLink with | none => .null | some s => .str s)])

/-- Embedding of `_format_event_markdown`: format a single event in Markdown. -/
def format_event_markdown (event : GEvent) : Str :=
  let lines : List Str :=
    ["## ".data ++ event.summary.getD "(No title)".data]
    ++ (match event.time with
        | .timed s e tz _ =>
          ["**Time**: ".data ++ strftimeYmdHM s ++ " - ".data ++ strftimeHM e ++
            " (".data ++ tz.getD "UTC".data ++ ")".data]
        | .allDay d _ => ["**Date**: ".data ++ d ++ " (All-day)".data]
        | .unspecified => [])
    ++ ["**ID**: `".data ++ optRepr event.id ++ "`".data,
        "**Status**: ".data ++ event.status.getD "confirmed".data]
    ++ (match event.description with
        | some d =>
          if d.isEmpty then [] else
            ["**Description**: ".data ++ d.take 200 ++
              (if 200 < d.length then "...".data else [])]
        | none => [])
    ++ (match event.location with
        | some l => if l.isEmpty then [] else ["**Location**: ".data ++ l]
        | none => [])
    ++ (if event.attendees.isEmpty then [] else
          ["**Attendees** (".data ++ natStr event.attendees.length ++ "):".data]
          ++ (event.attendees.take 5).map (fun a =>
              "  - ".data ++
                (match a.displayName with
                 | some n => n
                 | none => a.email.getD "Unknown".data) ++
                " (".data ++ a.responseStatus.getD "needsAction".data ++ ")".data)
          ++ (if 5 < event.attendees.length then
                ["  - ... and ".data ++ natStr (event.attendees.length - 5) ++ " more".data]
              else []))
    ++ (match event.hangoutLink with
        | some l => if l.isEmpty then [] else ["**Meet Link**: ".data ++ l]
        | none => [])
    ++ [[]]
  pyJoin "\n".data lines

/-- Embedding of `_format_events_response`: format an event list in the requested
format, with an optional total count and a has_more marker. -/
def format_events_response (events : List GEvent) (response_format : ResponseFormat)
    (total_count : Option Nat) (has_more : Bool) : Str :=
  match response_format with
  | .markdown =>
    let lines : List Str :=
      ["# Google Calendar Events".data, []]
      ++ [(match total_count with
           | some t =>
             "Found ".data ++ natStr t ++ " events (showing ".data ++
               natStr events.length ++ ")".data
           | none => "Found ".data ++ natStr events.length ++ " events".data)]
      ++ (if has_more then
            ["**Note**: More events available. Use pagination to see more.".data]
          else [])
      ++ [[]]
      ++ (if events.isEmpty then ["No events found.".data]
          else events.map format_event_markdown)
    pyJoin "\n".data lines
  | .json =>
    jsonDumps (.obj ([("count".data, JVal.num events.length),
                      ("events".data, JVal.arr (events.map eventToJVal))]
      ++ (match total_count with | some t => [("total".data, JVal.num t)] | none => [])
      ++ (if has_more then [("has_more".data, JVal.boolean true)] else [])))

/-- Input model for gcal_list_events (fields relevant to request composition). -/
structure ListEventsInput where
  calendar_id : Str
  time_range : TimeRange
  start_date : Option Str
  end_date : Option Str
  max_results : Nat
  response_format : ResponseFormat

/-- Truncation note appended by gcal_list_events. -/
def eventsNote (shown total : Nat) : Str :=
  "\n\n**Note**: Response truncated. Showing ".data ++ natStr shown ++ " of ".data ++
    natStr total ++ " events.".data

/-- Embedding of the gcal_list_events tool body. `now` is the current UTC time read by
`_get_time_range_bounds`; `token` is the GOOGLE_CALENDAR_ACCESS_TOKEN environment
variable; `fetch` is the would-be outcome of the single API call, unwrapped to the
items list. -/
def gcal_list_events_run (p : ListEventsInput) (now : PyDateTime) (token : Option Str)
    (fetch : Except PyException (List GEvent)) : Str × List HttpRequest :=
  match get_time_range_bounds p.time_range now p.start_date p.end_date with
  | .error e => (handle_api_error e, [])
  | .ok _ =>
    if !truthy token then (handle_api_error (.valueError tokenErrorMsg), [])
    else
      let req : HttpRequest := ⟨"GET".data, "calendars/".data ++ p.calendar_id ++ "/events".data, none⟩
      match fetch with
      | .error e => (handle_api_error e, [req])
      | .ok events =>
        if events.isEmpty then
          ("No events found in the specified time range (".data ++
            timeRangeValue p.time_range ++ ").".data, [req])
        else
          let result := format_events_response events p.response_format (some events.length) false
          if CHARACTER_LIMIT < result.length then
            let truncated_events := events.take (max 1 (events.length / 2))
            (format_events_response truncated_events p.response_format (some events.length) true
              ++ eventsNote truncated_events.length events.length, [req])
          else (result, [req])

end GCal

namespace GCal

/-- Event status options. -/
inductive EventStatus where
  | confirmed
  | tentative
  | cancelled
deriving DecidableEq

/-- String value of the enum. -/
def eventStatusValue : EventStatus → Str
  | .confirmed => "confirmed".data
  | .tentative => "tentative".data
  | .cancelled => "cancelled".data

/-- Input model for gcal_update_event. -/
structure UpdateEventInput where
  calendar_id : Str
  event_id : Str
  summary : Option Str
  description : Option Str
  location : Option Str
  start_datetime : Option Str
  end_datetime : Option Str
  timezone : Option Str
  status : Option EventStatus
  send_notifications : Bool

/-- Python `a or b` for an optional string against a default. -/
def pyOrStr (a : Option Str) (b : Str) : Str := if truthy a then a.getD [] else b

/-- The non-datetime entries of the patch object built by gcal_update_event: each of
summary, description, location and status is included only when it is not None, in
source order. -/
def base_patch (p : UpdateEventInput) : List (Str × JVal) :=
  optField "summary".data JVal.str p.summary
  ++ optField "description".data JVal.str p.description
  ++ optField "location".data JVal.str p.location
  ++ optField "status".data (fun v => JVal.str (eventStatusValue v)) p.status

/-- The "start" entry of the patch object: present only when start_datetime is truthy;
for a timed existing event it carries dateTime plus a timeZone (the timezone of the caller,
else the existing start timeZone, else UTC), for an all-day event only the date part. -/
def start_patch (p : UpdateEventInput) (existing : GEvent) : List (Str × JVal) :=
  if truthy p.start_datetime then
    match existing.time with
    | .timed _ _ stz _ =>
      [("start".data, .obj [("dateTime".data, JVal.str (p.start_datetime.getD [])),
                            ("timeZone".data, JVal.str (pyOrStr p.timezone (stz.getD "UTC".data)))])]
    | _ =>
      [("start".data, .obj [("date".data,
          JVal.str ((pySplit 'T' (p.start_datetime.getD [])).headD []))])]
  else []

/-- The "end" entry of the patch object, symmetric to `start_patch`. -/
def end_patch (p : UpdateEventInput) (existing : GEvent) : List (Str × JVal) :=
  if truthy p.end_datetime then
    match existing.time with
    | .timed _ _ _ etz =>
      [("end".data, .obj [("dateTime".data, JVal.str (p.end_datetime.getD [])),
                          ("timeZone".data, JVal.str (pyOrStr p.timezone (etz.getD "UTC".data)))])]
    | _ =>
      [("end".data, .obj [("date".data,
          JVal.str ((pySplit 'T' (p.end_datetime.getD [])).headD []))])]
  else []

/-- The full patch object for an update, given the existing event (only consulted for
the datetime entries). -/
def patch_data (p : UpdateEventInput) (existing : GEvent) : List (Str × JVal) :=
  base_patch p ++ start_patch p existing ++ end_patch p existing

/-- Condition under which gcal_update_event first fetches the existing event. -/
def needsExistingEvent (p : UpdateEventInput) : Bool :=
  truthy p.start_datetime || truthy p.end_datetime || truthy p.timezone

/-- The events endpoint for one event. -/
def eventEndpoint (p : UpdateEventInput) : Str :=
  "calendars/".data ++ p.calendar_id ++ "/events/".data ++ p.event_id

/-- The fixed error string returned when no update field was provided. -/
def noFieldsMsg : Str :=
  "Error: No fields to update. Please specify at least one field to change.".data

/-- Success message composed by gcal_update_event from the updated event. -/
def update_success (ev : GEvent) (p : UpdateEventInput) : Str :=
  let lines : List Str :=
    ["# Event Updated Successfully".data, [],
     "**Event ID**: `".data ++ optRepr ev.id ++ "`".data,
     "**Title**: ".data ++ optRepr ev.summary,
     "**Status**: ".data ++ ev.status.getD "confirmed".data]
    ++ (match ev.time with
        | .timed s _ _ _ => ["**Start**: ".data ++ isoformat s]
        | .allDay d _ => ["**Start**: ".data ++ d ++ " (All-day)".data]
        | .unspecified => [])
    ++ (match ev.location with
        | some l => if l.isEmpty then [] else ["**Location**: ".data ++ l]
        | none => [])
    ++ (match ev.htmlLink with
        | some l => if l.isEmpty then [] else ["**Calendar Link**: ".data ++ l]
        | none => [])
    ++ (if p.send_notifications then ["\n✉️ Update notifications sent to attendees".data] else [])
  pyJoin "\n".data lines

/-- Embedding of the gcal_update_event tool body. `fetchGet` is the would-be outcome
of the existing-event GET (made only when a datetime field is involved); `fetchPatch`
the would-be outcome of the PATCH. -/
def gcal_update_event_run (p : UpdateEventInput) (token : Option Str)
    (fetchGet : Except PyException GEvent) (fetchPatch : Except PyException GEvent) :
    Str × List HttpRequest :=
  if needsExistingEvent p then
    if !truthy token then (handle_api_error (.valueError tokenErrorMsg), [])
    else
      let getReq : HttpRequest := ⟨"GET".data, eventEndpoint p, none⟩
      match fetchGet with
      | .error e => (handle_api_error e, [getReq])
      | .ok existing =>
        let patch := patch_data p existing
        if patch.isEmpty then (noFieldsMsg, [getReq])
        else
          let patchReq : HttpRequest := ⟨"PATCH".data, eventEndpoint p, some (.obj patch)⟩
          match fetchPatch with
          | .error e => (handle_api_error e, [getReq, patchReq])
          | .ok ev => (update_success ev p, [getReq, patchReq])
  else
    let patch := base_patch p
    if patch.isEmpty then (noFieldsMsg, [])
    else if !truthy token then (handle_api_error (.valueError tokenErrorMsg), [])
    else
      let patchReq : HttpRequest := ⟨"PATCH".data, eventEndpoint p, some (.obj patch)⟩
      match fetchPatch with
      | .error e => (handle_api_error e, [patchReq])
      | .ok ev => (update_success ev p, [patchReq])

end GCal

namespace Places

/-- Python `float(s)` on a stripped string, modelled exactly-rationally for signed
decimal literals with optional fraction and exponent ("inf", "nan" and underscore
separators are not modelled; such inputs are treated as unparsable). The value
`±(I*10^f + F) / 10^f * 10^±e` is built with `mkRat`. -/
def pyFloat (s : Str) : Option ℚ :=
  let sgnRest : Int × Str :=
    match s with
    | '-' :: r => (-1, r)
    | '+' :: r => (1, r)
    | r => (1, r)
  let r0 := sgnRest.2
  let intDs := r0.takeWhile Char.isDigit
  let r1 := r0.dropWhile Char.isDigit
  let fracRest : Str × Str :=
    match r1 with
    | '.' :: r => (r.takeWhile Char.isDigit, r.dropWhile Char.isDigit)
    | r => ([], r)
  let fracDs := fracRest.1
  let r2 := fracRest.2
  if intDs.isEmpty && fracDs.isEmpty then none
  else
    let num : Int :=
      sgnRest.1 * (GCal.digitsToNat intDs * 10 ^ fracDs.length + GCal.digitsToNat fracDs)
    let den : Nat := 10 ^ fracDs.length
    match r2 with
    | [] => some (mkRat num den)
    | c :: r3 =>
      if c = 'e' ∨ c = 'E' then
        let esgnRest : Bool × Str :=
          match r3 with
          | '-' :: r => (true, r)
          | '+' :: r => (false, r)
          | r => (false, r)
        let eDs := esgnRest.2.takeWhile Char.isDigit
        let r5 := esgnRest.2.dropWhile Char.isDigit
        if eDs.isEmpty || !r5.isEmpty then none
        else
          let ev := GCal.digitsToNat eDs
          some (if esgnRest.1 then mkRat num (den * 10 ^ ev) else mkRat (num * 10 ^ ev) den)
      else none

/-- Latitude/longitude pair. -/
structure GeoCoords where
  latitude : ℚ
  longitude : ℚ
deriving DecidableEq

/-- The geocoding response, projected onto the fields the helper reads: the status and
the geometry.location coordinates of each result. -/
structure GeocodeResp where
  status : Str
  results : List GeoCoords

/-- The coordinate short-circuit of `_geocode_location`: a string containing a comma
that splits into exactly two float components within latitude/longitude ranges. -/
def coordShortCircuit (location : Str) : Option GeoCoords :=
  if location.contains ',' then
    match pySplit ',' location with
    | [a, b] =>
      match pyFloat (pyStrip a), pyFloat (pyStrip b) with
      | some lat, some lng =>
        if -90 ≤ lat ∧ lat ≤ 90 ∧ -180 ≤ lng ∧ lng ≤ 180 then some ⟨lat, lng⟩ else none
      | _, _ => none
    | _ => none
  else none

/-- Embedding of google_places_mcp `_geocode_location`: try the literal-coordinates
short-circuit first, and only on failure issue the geocoding request (whose would-be
outcome is `fetch`). Exceptions from the request propagate to the caller. -/
def geocode_location (location : Str) (fetch : Except PyException GeocodeResp) :
    Except PyException (Option GeoCoords) × List HttpRequest :=
  match coordShortCircuit location with
  | some c => (.ok (some c), [])
  | none =>
    let req : HttpRequest := ⟨"GET".data, "geocode/json".data, none⟩
    match fetch with
    | .error e => (.error e, [req])
    | .ok data =>
      if data.status = "OK".data ∧ ¬data.results.isEmpty then
        (.ok data.results.head?, [req])
      else (.ok none, [req])

/-- The truncation note of google_places_nearby_search. -/
def nearby_truncation_note : Str :=
  "\n\n[Response truncated - exceeded ".data ++ natStr CHARACTER_LIMIT ++
    " character limit. Try reducing radius_miles or max_results.]".data

/-- Embedding of the size guard of google_places_nearby_search (server.py lines
545-548): over the limit, the report string itself is cut at the character level to
make room for the note. -/
def nearby_size_guard (result : Str) : Str :=
  if CHARACTER_LIMIT < result.length then
    result.take (CHARACTER_LIMIT - nearby_truncation_note.length) ++ nearby_truncation_note
  else result

end Places

namespace Perplexity

/-- Embedding of perplexity_mcp `_truncate_if_needed`: over the limit, the content is
cut at the character level and a notice naming the limit and the original length is
appended. The call sites use `limit = CHARACTER_LIMIT`. -/
def truncate_if_needed (content : Str) (limit : Nat) : Str :=
  if content.length ≤ limit then content
  else
    content.take limit ++ "\n\n[Response truncated at ".data ++ natStr limit ++
      " characters. Original length: ".data ++ natStr content.length ++ " characters]".data

end Perplexity

namespace GMaps

/-- A place record built by google_maps search_nearby, projected onto the dict keys it
sets; `distance_miles` and `drive_time_minutes` are set only when the distance-matrix
element status is OK. -/
structure PlaceInfo where
  name : Option Str
  address : Option Str
  place_id : Option Str
  rating : Option ℚ
  user_ratings_total : Option Nat
  types : List Str
  distance_miles : Option ℚ
  drive_time_minutes : Option ℚ

/-- The sort key of the places.sort call with key distance_miles defaulting to float inf:
a missing distance compares as positive infinity. -/
def distKey (p : PlaceInfo) : WithTop ℚ :=
  match p.distance_miles with
  | some d => (d : WithTop ℚ)
  | none => ⊤

/-- Embedding of the `places.sort(...)` call of search_nearby: a stable ascending sort
by `distKey`. -/
def sortPlacesByDistance (places : List PlaceInfo) : List PlaceInfo :=
  places.mergeSort (fun a b => decide (distKey a ≤ distKey b))

end GMaps

/-- The nine fixed user-facing error shapes produced by the asana error translator, in
the priority order of the source: configuration, bad request, authentication, permission,
not-found, rate-limit, other-status, timeout, unexpected. -/
def asanaErrorShape (s : Str) : Prop :=
  (∃ m, s = "Configuration Error: ".data ++ m) ∨
  (∃ b, s = "Error: Bad request. ".data ++ b) ∨
  s = "Error: Authentication failed. Please check your access token.".data ∨
  s = "Error: Permission denied. You don\x27t have access to this resource.".data ∨
  s = "Error: Resource not found. Please check the ID.".data ∨
  s = "Error: Rate limit exceeded. Please wait before making more requests.".data ∨
  (∃ c b, s = "Error: API request failed with status ".data ++ natStr c ++ ": ".data ++ b) ∨
  s = "Error: Request timed out. Please try again.".data ∨
  (∃ n m, s = "Error: Unexpected error occurred: ".data ++ n ++ ": ".data ++ m)

/-- The nine fixed user-facing error shapes produced by the calendar error translator. -/
def gcalErrorShape (s : Str) : Prop :=
  (∃ m, s = "Configuration Error: ".data ++ m) ∨
  (∃ b, s = "Error: Bad request. ".data ++ b) ∨
  s = "Error: Authentication failed. Please check your access token.".data ∨
  s = "Error: Permission denied. You don\x27t have access to this calendar.".data ∨
  s = "Error: Event or calendar not found. Please check the ID.".data ∨
  s = "Error: Rate limit exceeded. Please wait before making more requests.".data ∨
  (∃ c b, s = "Error: API request failed with status ".data ++ natStr c ++ ": ".data ++ b) ∨
  s = "Error: Request timed out. Please try again.".data ∨
  (∃ n m, s = "Error: Unexpected error occurred: ".data ++ n ++ ": ".data ++ m)

/-- Witness fixture: a string of `n` letters. -/
def bigA (n : Nat) : Str := List.replicate n 'a'

/-- Witness fixture: a task whose name has `n` characters. -/
def wTaskBig (n : Nat) : Asana.AsanaTask :=
  ⟨some "1".data, some (bigA n), none, false, none, none, none, [], []⟩

/-- Witness fixture: a small task. -/
def wTaskSmall : Asana.AsanaTask :=
  ⟨some "2".data, some "b".data, none, false, none, none, none, [], []⟩

/-- Witness fixture: a default list-tasks input. -/
def wListTasksInput : Asana.ListTasksInput :=
  ⟨none, some "me".data, none, none, 50, .markdown⟩

/-- Witness fixture: an event whose summary has `n` characters. -/
def wEventBig (n : Nat) : GCal.GEvent :=
  ⟨some (bigA n), .unspecified, some "e1".data, none, none, none, [], none, none⟩

/-- Witness fixture: a small event. -/
def wEventSmall : GCal.GEvent :=
  ⟨some "b".data, .unspecified, some "e2".data, none, none, none, [], none, none⟩

/-- Witness fixture: a default list-events input. -/
def wListEventsInput : GCal.ListEventsInput :=
  ⟨"primary".data, .this_week, none, none, 50, .markdown⟩

/-- Witness fixture: a list-events input with a custom range and missing bounds. -/
def wCustomInput : GCal.ListEventsInput :=
  ⟨"primary".data, .custom, none, none, 50, .markdown⟩

/-- Witness fixture: a concrete UTC instant (December 15, 2024, 10:30:00 UTC). -/
def wDecember : GCal.PyDateTime := ⟨2024, 12, 15, 10, 30, 0, 0, some 0⟩

/-- Witness fixture: an update-task input setting only the due date. -/
def wDueOnlyInput : Asana.UpdateTaskInput :=
  ⟨"42".data, none, none, none, some "2024-01-31".data, none⟩

/-- Witness fixture: an update-task input setting nothing. -/
def wEmptyUpdateInput : Asana.UpdateTaskInput := ⟨"42".data, none, none, none, none, none⟩

/-- Witness fixture: an update-event input setting nothing. -/
def wEmptyEventUpdate : GCal.UpdateEventInput :=
  ⟨"primary".data, "e1".data, none, none, none, none, none, none, none, true⟩

/-- Witness fixture: an update-event input setting only the summary. -/
def wSummaryEventUpdate : GCal.UpdateEventInput :=
  ⟨"primary".data, "e1".data, some "New title".data, none, none, none, none, none, none, true⟩

/-- Witness fixture: places with and without a computed distance. -/
def wPlaceFar : GMaps.PlaceInfo := ⟨some "far".data, none, none, none, none, [], some 5, none⟩

/-- Witness fixture: a nearer place. -/
def wPlaceNear : GMaps.PlaceInfo := ⟨some "near".data, none, none, none, none, [], some 2, none⟩

/-- Witness fixture: a place with no computable distance. -/
def wPlaceNoDist : GMaps.PlaceInfo := ⟨some "unknown".data, none, none, none, none, [], none, none⟩

theorem pyJoin_single (sep x : Str) : pyJoin sep [x] = x := by
  simp [pyJoin, List.intersperse]

theorem pyJoin_cons (sep x y : Str) (t : List Str) :
    pyJoin sep (x :: y :: t) = x ++ sep ++ pyJoin sep (y :: t) := by
  simp [pyJoin, List.intersperse]

theorem bigA_length (n : Nat) : (bigA n).length = n := by
  simp [bigA]

set_option maxRecDepth 8000 in
theorem asana_resp_lower_bound (n : Nat) :
    n ≤ (Asana.format_tasks_response [wTaskBig n, wTaskSmall] .markdown "My Tasks".data).length := by
  simp [Asana.format_tasks_response, Asana.format_task_markdown, wTaskBig, wTaskSmall,
    pyJoin_cons, pyJoin_single, optRepr, List.length_append, bigA_length, natStr]
  omega

set_option maxRecDepth 8000 in
theorem gcal_resp_lower_bound (n : Nat) :
    n ≤ (GCal.format_events_response [wEventBig n, wEventSmall] .markdown (some 2) false).length := by
  simp [GCal.format_events_response, GCal.format_event_markdown, wEventBig, wEventSmall,
    pyJoin_cons, pyJoin_single, optRepr, List.length_append, bigA_length, natStr]
  omega

theorem asana_trunc_eq (p : Asana.ListTasksInput) (token : Option Str)
    (tasks : List Asana.AsanaTask) (htok : truthy token = true) (hne : tasks ≠ [])
    (hover : CHARACTER_LIMIT <
      (Asana.format_tasks_response tasks p.response_format "My Tasks".data).length) :
    Asana.asana_list_tasks_run p token (.ok tasks) =
      (Asana.format_tasks_response (tasks.take (max 1 (tasks.length / 2))) p.response_format
          "My Tasks (Truncated)".data
        ++ Asana.tasksNote (tasks.take (max 1 (tasks.length / 2))).length tasks.length,
       [⟨"GET".data, Asana.list_tasks_endpoint p, none⟩]) := by
  have hni : tasks.isEmpty = false := by
    cases tasks with
    | nil => exact absurd rfl hne
    | cons a t => rfl
  simp [Asana.asana_list_tasks_run, htok, hni, hover]

theorem gcal_trunc_eq (p : GCal.ListEventsInput) (now : GCal.PyDateTime) (token : Option Str)
    (events : List GCal.GEvent) (ab : Str × Str)
    (hb : GCal.get_time_range_bounds p.time_range now p.start_date p.end_date = .ok ab)
    (htok : truthy token = true) (hne : events ≠ [])
    (hover : CHARACTER_LIMIT <
      (GCal.format_events_response events p.response_format (some events.length) false).length) :
    GCal.gcal_list_events_run p now token (.ok events) =
      (GCal.format_events_response (events.take (max 1 (events.length / 2))) p.response_format
          (some events.length) true
        ++ GCal.eventsNote (events.take (max 1 (events.length / 2))).length events.length,
       [⟨"GET".data, "calendars/".data ++ p.calendar_id ++ "/events".data, none⟩]) := by
  have hni : events.isEmpty = false := by
    cases events with
    | nil => exact absurd rfl hne
    | cons a t => rfl
  simp [GCal.gcal_list_events_run, hb, htok, hni, hover]

theorem take_half_length {α : Type} (l : List α) (h : 1 < l.length) :
    (l.take (max 1 (l.length / 2))).length = max 1 (l.length / 2) := by
  rw [List.length_take]
  omega

theorem replaceTime0_nextDayD (d : GCal.PyDateTime) :
    GCal.replaceTime0 (GCal.nextDayD d) = GCal.nextDayD (GCal.replaceTime0 d) := by
  cases d
  simp only [GCal.nextDayD, GCal.replaceTime0]
  split_ifs <;> rfl

theorem replaceTime0_addDays (d : GCal.PyDateTime) (n : Nat) :
    GCal.replaceTime0 (GCal.addDays d n) = GCal.addDays (GCal.replaceTime0 d) n := by
  induction n with
  | zero => rfl
  | succ k ih => simp [GCal.addDays, replaceTime0_nextDayD, ih]

theorem addDays_addDays (d : GCal.PyDateTime) (m n : Nat) :
    GCal.addDays (GCal.addDays d m) n = GCal.addDays d (m + n) := by
  induction n with
  | zero => rfl
  | succ k ih => simp [GCal.addDays, ih, Nat.add_succ]

theorem pySplit_mem (sep : Char) (s : Str) (a b : Str) (r : List Str)
    (h : pySplit sep s = a :: b :: r) : sep ∈ s := by
  induction s generalizing a b r with
  | nil => simp [pySplit] at h
  | cons c t ih =>
    by_cases hc : c = sep
    · simp [hc]
    · simp only [pySplit, if_neg hc] at h
      cases hsp : pySplit sep t with
      | nil => rw [hsp] at h; simp at h
      | cons p ps =>
        rw [hsp] at h
        injection h with h1 h2
        subst h2
        exact List.mem_cons_of_mem c (ih p b r hsp)

theorem pySplit_contains (sep : Char) (s : Str) (a b : Str) (r : List Str)
    (h : pySplit sep s = a :: b :: r) : s.contains sep = true :=
  List.elem_eq_true_of_mem (pySplit_mem sep s a b r h)

theorem distKey_top_iff (p : GMaps.PlaceInfo) :
    GMaps.distKey p = ⊤ ↔ p.distance_miles = none := by
  cases h : p.distance_miles <;> simp [GMaps.distKey, h]

theorem sortPlaces_pairwise (l : List GMaps.PlaceInfo) :
    (GMaps.sortPlacesByDistance l).Pairwise (fun a b => GMaps.distKey a ≤ GMaps.distKey b) := by
  have ht : ∀ a b c : GMaps.PlaceInfo,
      decide (GMaps.distKey a ≤ GMaps.distKey b) →
      decide (GMaps.distKey b ≤ GMaps.distKey c) →
      decide (GMaps.distKey a ≤ GMaps.distKey c) := by
    intro a b c hab hbc
    simp only [decide_eq_true_eq] at *
    exact le_trans hab hbc
  have htot : ∀ a b : GMaps.PlaceInfo,
      decide (GMaps.distKey a ≤ GMaps.distKey b) || decide (GMaps.distKey b ≤ GMaps.distKey a) := by
    intro a b
    simp only [Bool.or_eq_true, decide_eq_true_eq]
    exact le_total _ _
  have hp := List.sorted_mergeSort ht htot l
  exact hp.imp (by intro a b h; simpa using h)

/-- Claim C3: for every invocation of the calendar time-range resolver at a given
current UTC time, the produced [start, end) interval equals the reference definition
(today, tomorrow, rolling this_week, next_week, this_month with month start and next
month start), and in December the this_month end bound is January 1 of the following
year at 00:00 UTC. -/
theorem claim_C3_time_range_resolution :
    (∀ (now : GCal.PyDateTime) (sd ed : Option Str) (tr : GCal.TimeRange)
        (a b : GCal.PyDateTime),
        GCal.spec_time_range tr now = some (a, b) →
        GCal.get_time_range_bounds tr now sd ed = .ok (GCal.isoformat a, GCal.isoformat b)) ∧
    (∀ now : GCal.PyDateTime, now.month = 12 →
        GCal.nextMonthStartUTC now = ⟨now.year + 1, 1, 1, 0, 0, 0, 0, now.offsetMinutes⟩) := by
  constructor
  · intro now sd ed tr a b h
    cases tr <;>
      simp only [GCal.spec_time_range, Option.some.injEq, Prod.mk.injEq] at h <;>
      obtain ⟨ha, hb⟩ := h <;> subst ha <;> subst hb <;>
      simp [GCal.get_time_range_bounds, GCal.midnightUTC, GCal.monthStartUTC,
        GCal.nextMonthStartUTC, replaceTime0_addDays, addDays_addDays]
  · intro now h
    simp [GCal.nextMonthStartUTC, h]

/-- Witness for C3 at a concrete December instant: this_month resolves to
[2024-12-01T00:00, 2025-01-01T00:00), exhibiting the year rollover. -/
theorem claim_C3_witness :
    GCal.get_time_range_bounds .this_month wDecember none none =
      .ok (GCal.isoformat ⟨2024, 12, 1, 0, 0, 0, 0, some 0⟩,
           GCal.isoformat ⟨2025, 1, 1, 0, 0, 0, 0, some 0⟩) ∧
    GCal.nextMonthStartUTC wDecember =
      ⟨wDecember.year + 1, 1, 1, 0, 0, 0, 0, wDecember.offsetMinutes⟩ :=
  ⟨claim_C3_time_range_resolution.1 wDecember none none .this_month
      ⟨2024, 12, 1, 0, 0, 0, 0, some 0⟩ ⟨2025, 1, 1, 0, 0, 0, 0, some 0⟩ (by decide),
   claim_C3_time_range_resolution.2 wDecember rfl⟩

/-- Claim C8: for every calendar list-events invocation with time_range = custom where
the start bound or the end bound (or both) is absent, the tool fails with a
configuration error whose message names both bound fields, and no HTTP request is
issued. -/
theorem claim_C8_custom_bounds :
    ∀ (p : GCal.ListEventsInput) (now : GCal.PyDateTime) (token : Option Str)
      (fetch : Except PyException (List GCal.GEvent)),
      p.time_range = .custom →
      (truthy p.start_date = false ∨ truthy p.end_date = false) →
      GCal.gcal_list_events_run p now token fetch =
        ("Configuration Error: ".data ++ GCal.customBoundsMsg, []) ∧
      containsSeg "start_date".data GCal.customBoundsMsg ∧
      containsSeg "end_date".data GCal.customBoundsMsg := by
  intro p now token fetch htr hmiss
  have hb : GCal.get_time_range_bounds p.time_range now p.start_date p.end_date =
      .error (.valueError GCal.customBoundsMsg) := by
    rw [htr]
    rcases hmiss with h | h <;> simp [GCal.get_time_range_bounds, h]
  refine ⟨?_,
    ⟨"For CUSTOM time range, both ".data, " and end_date must be provided".data, by decide⟩,
    ⟨"For CUSTOM time range, both start_date and ".data, " must be provided".data, by decide⟩⟩
  simp [GCal.gcal_list_events_run, hb, GCal.handle_api_error]

/-- Witness for C8: a custom range with both bounds absent yields the configuration
error and an empty request trace. -/
theorem claim_C8_witness :
    wCustomInput.time_range = .custom ∧
    truthy wCustomInput.start_date = false ∧
    GCal.gcal_list_events_run wCustomInput wDecember (some "t".data) (.ok []) =
      ("Configuration Error: ".data ++ GCal.customBoundsMsg, []) :=
  ⟨rfl, rfl,
   (claim_C8_custom_bounds wCustomInput wDecember (some "t".data) (.ok []) rfl (Or.inl rfl)).1⟩

/-- Claim C10: for every update-tool invocation in which no updatable field is
provided, the tool returns the fixed "No fields to update" error string and issues no
HTTP request at all (in particular no mutating PATCH/PUT), leaving the remote resource
unchanged. -/
theorem claim_C10_no_fields_update :
    (∀ (p : Asana.UpdateTaskInput) (token : Option Str)
        (fetch : Except PyException Asana.AsanaTask),
      p.name = none → p.notes = none → p.assignee = none → p.due_on = none →
      p.completed = none →
      Asana.asana_update_task_run p token fetch =
        ("Error: No fields to update. Specify at least one field.".data, [])) ∧
    (∀ (p : GCal.UpdateEventInput) (token : Option Str)
        (fg fp : Except PyException GCal.GEvent),
      p.summary = none → p.description = none → p.location = none → p.status = none →
      truthy p.start_datetime = false → truthy p.end_datetime = false →
      truthy p.timezone = false →
      GCal.gcal_update_event_run p token fg fp = (GCal.noFieldsMsg, [])) := by
  constructor
  · intro p token fetch h1 h2 h3 h4 h5
    simp [Asana.asana_update_task_run, Asana.update_task_fields, optField,
      h1, h2, h3, h4, h5]
  · intro p token fg fp h1 h2 h3 h4 h5 h6 h7
    simp [GCal.gcal_update_event_run, GCal.needsExistingEvent, GCal.base_patch, optField,
      h1, h2, h3, h4, h5, h6, h7]

/-- Witness for C10: concrete no-field update requests produce the fixed error and an
empty request trace for both adapters. -/
theorem claim_C10_witness :
    Asana.asana_update_task_run wEmptyUpdateInput (some "t".data) (.error .timeoutException) =
      ("Error: No fields to update. Specify at least one field.".data, []) ∧
    GCal.gcal_update_event_run wEmptyEventUpdate (some "t".data) (.error .timeoutException)
        (.error .timeoutException) = (GCal.noFieldsMsg, []) :=
  ⟨claim_C10_no_fields_update.1 wEmptyUpdateInput _ _ rfl rfl rfl rfl rfl,
   claim_C10_no_fields_update.2 wEmptyEventUpdate _ _ _ rfl rfl rfl rfl rfl rfl rfl⟩

/-- Claim C1: for every list-formatting tool invocation (asana_list_tasks,
gcal_list_events) where the full formatted report exceeds 25,000 characters and the
item count N is greater than 1, the returned report is regenerated from exactly the
first max(1, N//2) items and contains an appended note mentioning both the shown count
and the original count N. -/
theorem claim_C1_half_truncation :
    (∀ (p : Asana.ListTasksInput) (token : Option Str) (tasks : List Asana.AsanaTask),
      truthy token = true → tasks ≠ [] →
      CHARACTER_LIMIT <
        (Asana.format_tasks_response tasks p.response_format "My Tasks".data).length →
      1 < tasks.length →
      (Asana.asana_list_tasks_run p token (.ok tasks)).1 =
        Asana.format_tasks_response (tasks.take (max 1 (tasks.length / 2)))
          p.response_format "My Tasks (Truncated)".data
        ++ Asana.tasksNote (max 1 (tasks.length / 2)) tasks.length ∧
      containsSeg (natStr (max 1 (tasks.length / 2)))
        (Asana.asana_list_tasks_run p token (.ok tasks)).1 ∧
      containsSeg (natStr tasks.length)
        (Asana.asana_list_tasks_run p token (.ok tasks)).1) ∧
    (∀ (p : GCal.ListEventsInput) (now : GCal.PyDateTime) (token : Option Str)
        (events : List GCal.GEvent) (ab : Str × Str),
      GCal.get_time_range_bounds p.time_range now p.start_date p.end_date = .ok ab →
      truthy token = true → events ≠ [] →
      CHARACTER_LIMIT <
        (GCal.format_events_response events p.response_format (some events.length) false).length →
      1 < events.length →
      (GCal.gcal_list_events_run p now token (.ok events)).1 =
        GCal.format_events_response (events.take (max 1 (events.length / 2)))
          p.response_format (some events.length) true
        ++ GCal.eventsNote (max 1 (events.length / 2)) events.length ∧
      containsSeg (natStr (max 1 (events.length / 2)))
        (GCal.gcal_list_events_run p now token (.ok events)).1 ∧
      containsSeg (natStr events.length)
        (GCal.gcal_list_events_run p now token (.ok events)).1) := by
  constructor
  · intro p token tasks htok hne hover hN
    have heq := asana_trunc_eq p token tasks htok hne hover
    rw [take_half_length tasks hN] at heq
    rw [heq]
    refine ⟨rfl,
      ⟨Asana.format_tasks_response (tasks.take (max 1 (tasks.length / 2)))
          p.response_format "My Tasks (Truncated)".data ++ "\n\n**Note**: Showing ".data,
       " of ".data ++ natStr tasks.length ++ " tasks.".data,
       by simp [Asana.tasksNote, List.append_assoc]⟩,
      ⟨Asana.format_tasks_response (tasks.take (max 1 (tasks.length / 2)))
          p.response_format "My Tasks (Truncated)".data ++ "\n\n**Note**: Showing ".data
          ++ natStr (max 1 (tasks.length / 2)) ++ " of ".data,
       " tasks.".data,
       by simp [Asana.tasksNote, List.append_assoc]⟩⟩
  · intro p now token events ab hb htok hne hover hN
    have heq := gcal_trunc_eq p now token events ab hb htok hne hover
    rw [take_half_length events hN] at heq
    rw [heq]
    refine ⟨rfl,
      ⟨GCal.format_events_response (events.take (max 1 (events.length / 2)))
          p.response_format (some events.length) true
          ++ "\n\n**Note**: Response truncated. Showing ".data,
       " of ".data ++ natStr events.length ++ " events.".data,
       by simp [GCal.eventsNote, List.append_assoc]⟩,
      ⟨GCal.format_events_response (events.take (max 1 (events.length / 2)))
          p.response_format (some events.length) true
          ++ "\n\n**Note**: Response truncated. Showing ".data
          ++ natStr (max 1 (events.length / 2)) ++ " of ".data,
       " events.".data,
       by simp [GCal.eventsNote, List.append_assoc]⟩⟩

/-- Witness for C1: a two-item list whose report exceeds the limit is regenerated from
its first item with the shown-of-total note, in both adapters. -/
theorem claim_C1_witness :
    truthy (some "t".data) = true ∧
    (1 : Nat) < ([wTaskBig 25001, wTaskSmall] : List Asana.AsanaTask).length ∧
    ((Asana.asana_list_tasks_run wListTasksInput (some "t".data)
        (.ok [wTaskBig 25001, wTaskSmall])).1 =
      Asana.format_tasks_response
          ([wTaskBig 25001, wTaskSmall].take
            (max 1 ([wTaskBig 25001, wTaskSmall].length / 2)))
          wListTasksInput.response_format "My Tasks (Truncated)".data
        ++ Asana.tasksNote (max 1 ([wTaskBig 25001, wTaskSmall].length / 2))
            [wTaskBig 25001, wTaskSmall].length ∧
      containsSeg (natStr (max 1 ([wTaskBig 25001, wTaskSmall].length / 2)))
        (Asana.asana_list_tasks_run wListTasksInput (some "t".data)
          (.ok [wTaskBig 25001, wTaskSmall])).1 ∧
      containsSeg (natStr ([wTaskBig 25001, wTaskSmall] : List Asana.AsanaTask).length)
        (Asana.asana_list_tasks_run wListTasksInput (some "t".data)
          (.ok [wTaskBig 25001, wTaskSmall])).1) ∧
    ((GCal.gcal_list_events_run wListEventsInput wDecember (some "t".data)
        (.ok [wEventBig 25001, wEventSmall])).1 =
      GCal.format_events_response
          ([wEventBig 25001, wEventSmall].take
            (max 1 ([wEventBig 25001, wEventSmall].length / 2)))
          wListEventsInput.response_format
          (some ([wEventBig 25001, wEventSmall] : List GCal.GEvent).length) true
        ++ GCal.eventsNote (max 1 ([wEventBig 25001, wEventSmall].length / 2))
            ([wEventBig 25001, wEventSmall] : List GCal.GEvent).length ∧
      containsSeg (natStr (max 1 ([wEventBig 25001, wEventSmall].length / 2)))
        (GCal.gcal_list_events_run wListEventsInput wDecember (some "t".data)
          (.ok [wEventBig 25001, wEventSmall])).1 ∧
      containsSeg (natStr ([wEventBig 25001, wEventSmall] : List GCal.GEvent).length)
        (GCal.gcal_list_events_run wListEventsInput wDecember (some "t".data)
          (.ok [wEventBig 25001, wEventSmall])).1) :=
  ⟨rfl, by decide,
   claim_C1_half_truncation.1 wListTasksInput (some "t".data) [wTaskBig 25001, wTaskSmall]
     rfl (by simp)
     (lt_of_lt_of_le (by norm_num [CHARACTER_LIMIT]) (asana_resp_lower_bound 25001))
     (by decide),
   claim_C1_half_truncation.2 wListEventsInput wDecember (some "t".data)
     [wEventBig 25001, wEventSmall]
     (GCal.isoformat ⟨2024, 12, 15, 0, 0, 0, 0, some 0⟩,
      GCal.isoformat ⟨2024, 12, 22, 0, 0, 0, 0, some 0⟩)
     rfl rfl (by simp)
     (lt_of_lt_of_le (by norm_num [CHARACTER_LIMIT]) (gcal_resp_lower_bound 25001))
     (by decide)⟩

/-- Claim C9: truncation is monotonic: for every non-empty item list whose full report
exceeds the character limit, the list tools regenerate from a prefix of K items with
K = max(1, N//2); the regenerated item count is at least 1 (a single over-limit item
still yields exactly 1 item) and strictly smaller than N whenever N is greater than 1. -/
theorem claim_C9_truncation_monotonic :
    (∀ (p : Asana.ListTasksInput) (token : Option Str) (tasks : List Asana.AsanaTask),
      truthy token = true → tasks ≠ [] →
      CHARACTER_LIMIT <
        (Asana.format_tasks_response tasks p.response_format "My Tasks".data).length →
      ∃ K, (Asana.asana_list_tasks_run p token (.ok tasks)).1 =
          Asana.format_tasks_response (tasks.take K) p.response_format
            "My Tasks (Truncated)".data
          ++ Asana.tasksNote (tasks.take K).length tasks.length ∧
        K = max 1 (tasks.length / 2) ∧
        1 ≤ (tasks.take K).length ∧
        (1 < tasks.length → (tasks.take K).length < tasks.length)) ∧
    (∀ (p : GCal.ListEventsInput) (now : GCal.PyDateTime) (token : Option Str)
        (events : List GCal.GEvent) (ab : Str × Str),
      GCal.get_time_range_bounds p.time_range now p.start_date p.end_date = .ok ab →
      truthy token = true → events ≠ [] →
      CHARACTER_LIMIT <
        (GCal.format_events_response events p.response_format (some events.length) false).length →
      ∃ K, (GCal.gcal_list_events_run p now token (.ok events)).1 =
          GCal.format_events_response (events.take K) p.response_format
            (some events.length) true
          ++ GCal.eventsNote (events.take K).length events.length ∧
        K = max 1 (events.length / 2) ∧
        1 ≤ (events.take K).length ∧
        (1 < events.length → (events.take K).length < events.length)) := by
  constructor
  · intro p token tasks htok hne hover
    have heq := asana_trunc_eq p token tasks htok hne hover
    have hpos : 0 < tasks.length := List.length_pos.mpr hne
    refine ⟨max 1 (tasks.length / 2), by rw [heq], rfl, ?_, ?_⟩
    · rw [List.length_take]; omega
    · intro h2; rw [List.length_take]; omega
  · intro p now token events ab hb htok hne hover
    have heq := gcal_trunc_eq p now token events ab hb htok hne hover
    have hpos : 0 < events.length := List.length_pos.mpr hne
    refine ⟨max 1 (events.length / 2), by rw [heq], rfl, ?_, ?_⟩
    · rw [List.length_take]; omega
    · intro h2; rw [List.length_take]; omega

/-- Witness for C9 at a concrete two-item over-limit list for each adapter. -/
theorem claim_C9_witness :
    (∃ K, (Asana.asana_list_tasks_run wListTasksInput (some "t".data)
        (.ok [wTaskBig 25001, wTaskSmall])).1 =
        Asana.format_tasks_response ([wTaskBig 25001, wTaskSmall].take K)
          wListTasksInput.response_format "My Tasks (Truncated)".data
        ++ Asana.tasksNote ([wTaskBig 25001, wTaskSmall].take K).length
            ([wTaskBig 25001, wTaskSmall] : List Asana.AsanaTask).length ∧
      K = max 1 (([wTaskBig 25001, wTaskSmall] : List Asana.AsanaTask).length / 2) ∧
      1 ≤ ([wTaskBig 25001, wTaskSmall].take K).length ∧
      (1 < ([wTaskBig 25001, wTaskSmall] : List Asana.AsanaTask).length →
        ([wTaskBig 25001, wTaskSmall].take K).length <
          ([wTaskBig 25001, wTaskSmall] : List Asana.AsanaTask).length)) ∧
    (∃ K, (GCal.gcal_list_events_run wListEventsInput wDecember (some "t".data)
        (.ok [wEventBig 25001, wEventSmall])).1 =
        GCal.format_events_response ([wEventBig 25001, wEventSmall].take K)
          wListEventsInput.response_format
          (some ([wEventBig 25001, wEventSmall] : List GCal.GEvent).length) true
        ++ GCal.eventsNote ([wEventBig 25001, wEventSmall].take K).length
            ([wEventBig 25001, wEventSmall] : List GCal.GEvent).length ∧
      K = max 1 (([wEventBig 25001, wEventSmall] : List GCal.GEvent).length / 2) ∧
      1 ≤ ([wEventBig 25001, wEventSmall].take K).length ∧
      (1 < ([wEventBig 25001, wEventSmall] : List GCal.GEvent).length →
        ([wEventBig 25001, wEventSmall].take K).length <
          ([wEventBig 25001, wEventSmall] : List GCal.GEvent).length)) :=
  ⟨claim_C9_truncation_monotonic.1 wListTasksInput (some "t".data)
     [wTaskBig 25001, wTaskSmall] rfl (by simp)
     (lt_of_lt_of_le (by norm_num [CHARACTER_LIMIT]) (asana_resp_lower_bound 25001)),
   claim_C9_truncation_monotonic.2 wListEventsInput wDecember (some "t".data)
     [wEventBig 25001, wEventSmall]
     (GCal.isoformat ⟨2024, 12, 15, 0, 0, 0, 0, some 0⟩,
      GCal.isoformat ⟨2024, 12, 22, 0, 0, 0, 0, some 0⟩)
     rfl rfl (by simp)
     (lt_of_lt_of_le (by norm_num [CHARACTER_LIMIT]) (gcal_resp_lower_bound 25001))⟩

/-- Counterexample to claim C2: the claim says every adapter truncates an over-limit
report by regenerating from the first half of the item list with a shown-of-total note
and never by a raw character-level cut, but the truncation helper of the perplexity adapter
and the google_places nearby-search size guard both cut the report string at the
character level (a strict prefix of the original report) and append a character-count
note instead. -/
theorem claim_C2_counterexample :
    Perplexity.truncate_if_needed (bigA 25001) CHARACTER_LIMIT =
      (bigA 25001).take CHARACTER_LIMIT ++
        ("\n\n[Response truncated at ".data ++ natStr CHARACTER_LIMIT ++
          " characters. Original length: ".data ++ natStr 25001 ++ " characters]".data) ∧
    (bigA 25001).take CHARACTER_LIMIT ≠ bigA 25001 ∧
    CHARACTER_LIMIT < (bigA 25001).length ∧
    Places.nearby_size_guard (bigA 25001) =
      (bigA 25001).take (CHARACTER_LIMIT - Places.nearby_truncation_note.length) ++
        Places.nearby_truncation_note ∧
    (bigA 25001).take (CHARACTER_LIMIT - Places.nearby_truncation_note.length) ≠ bigA 25001 := by
  refine ⟨?_, ?_, ?_, ?_, ?_⟩
  · simp only [Perplexity.truncate_if_needed, bigA_length]
    rw [if_neg (by norm_num [CHARACTER_LIMIT])]
    simp [List.append_assoc]
  · intro h
    have h2 := congrArg List.length h
    rw [List.length_take, bigA_length] at h2
    simp only [CHARACTER_LIMIT] at h2
    omega
  · rw [bigA_length]; norm_num [CHARACTER_LIMIT]
  · simp only [Places.nearby_size_guard, bigA_length]
    rw [if_pos (by norm_num [CHARACTER_LIMIT])]
  · intro h
    have h2 := congrArg List.length h
    rw [List.length_take, bigA_length] at h2
    simp only [CHARACTER_LIMIT] at h2
    omega

/-- Claim C2 (amended): the truncation strategies are per-adapter, not uniform. The
asana and calendar list tools regenerate the over-limit report from the first
max(1, N//2) items and append a shown-of-total note; the perplexity truncation helper
and the google_places nearby-search size guard instead cut the over-limit report
string at the character level and append a note (the perplexity one naming the character
limit and the original character length), all at the same fixed 25,000-character
limit. -/
theorem claim_C2_amended :
    (∀ (p : Asana.ListTasksInput) (token : Option Str) (tasks : List Asana.AsanaTask),
      truthy token = true → tasks ≠ [] →
      CHARACTER_LIMIT <
        (Asana.format_tasks_response tasks p.response_format "My Tasks".data).length →
      (Asana.asana_list_tasks_run p token (.ok tasks)).1 =
        Asana.format_tasks_response (tasks.take (max 1 (tasks.length / 2)))
          p.response_format "My Tasks (Truncated)".data
        ++ Asana.tasksNote (tasks.take (max 1 (tasks.length / 2))).length tasks.length) ∧
    (∀ (p : GCal.ListEventsInput) (now : GCal.PyDateTime) (token : Option Str)
        (events : List GCal.GEvent) (ab : Str × Str),
      GCal.get_time_range_bounds p.time_range now p.start_date p.end_date = .ok ab →
      truthy token = true → events ≠ [] →
      CHARACTER_LIMIT <
        (GCal.format_events_response events p.response_format (some events.length) false).length →
      (GCal.gcal_list_events_run p now token (.ok events)).1 =
        GCal.format_events_response (events.take (max 1 (events.length / 2)))
          p.response_format (some events.length) true
        ++ GCal.eventsNote (events.take (max 1 (events.length / 2))).length events.length) ∧
    (∀ (content : Str) (limit : Nat), limit < content.length →
      Perplexity.truncate_if_needed content limit =
        content.take limit ++
          ("\n\n[Response truncated at ".data ++ natStr limit ++
            " characters. Original length: ".data ++ natStr content.length ++
            " characters]".data)) ∧
    (∀ result : Str, CHARACTER_LIMIT < result.length →
      Places.nearby_size_guard result =
        result.take (CHARACTER_LIMIT - Places.nearby_truncation_note.length) ++
          Places.nearby_truncation_note) := by
  refine ⟨?_, ?_, ?_, ?_⟩
  · intro p token tasks htok hne hover
    rw [asana_trunc_eq p token tasks htok hne hover]
  · intro p now token events ab hb htok hne hover
    rw [gcal_trunc_eq p now token events ab hb htok hne hover]
  · intro content limit h
    simp only [Perplexity.truncate_if_needed]
    rw [if_neg (by omega)]
    simp [List.append_assoc]
  · intro result h
    simp only [Places.nearby_size_guard]
    rw [if_pos h]

/-- Witness for the amended C2 at concrete over-limit inputs for the raw-cut adapters
and at the two-item over-limit task list for the halving adapter. -/
theorem claim_C2_witness :
    CHARACTER_LIMIT < (bigA 25001).length ∧
    Perplexity.truncate_if_needed (bigA 25001) CHARACTER_LIMIT =
      (bigA 25001).take CHARACTER_LIMIT ++
        ("\n\n[Response truncated at ".data ++ natStr CHARACTER_LIMIT ++
          " characters. Original length: ".data ++ natStr (bigA 25001).length ++
          " characters]".data) ∧
    Places.nearby_size_guard (bigA 25001) =
      (bigA 25001).take (CHARACTER_LIMIT - Places.nearby_truncation_note.length) ++
        Places.nearby_truncation_note ∧
    (Asana.asana_list_tasks_run wListTasksInput (some "t".data)
        (.ok [wTaskBig 25001, wTaskSmall])).1 =
      Asana.format_tasks_response
          ([wTaskBig 25001, wTaskSmall].take
            (max 1 ([wTaskBig 25001, wTaskSmall].length / 2)))
          wListTasksInput.response_format "My Tasks (Truncated)".data
        ++ Asana.tasksNote
            (([wTaskBig 25001, wTaskSmall].take
              (max 1 ([wTaskBig 25001, wTaskSmall].length / 2))).length)
            ([wTaskBig 25001, wTaskSmall] : List Asana.AsanaTask).length :=
  ⟨by rw [bigA_length]; norm_num [CHARACTER_LIMIT],
   claim_C2_amended.2.2.1 (bigA 25001) CHARACTER_LIMIT
     (by rw [bigA_length]; norm_num [CHARACTER_LIMIT]),
   claim_C2_amended.2.2.2 (bigA 25001)
     (by rw [bigA_length]; norm_num [CHARACTER_LIMIT]),
   claim_C2_amended.1 wListTasksInput (some "t".data) [wTaskBig 25001, wTaskSmall]
     rfl (by simp)
     (lt_of_lt_of_le (by norm_num [CHARACTER_LIMIT]) (asana_resp_lower_bound 25001))⟩

theorem mem_optField {α : Type} (k k' : Str) (f : α → JVal) (o : Option α) (v : JVal) :
    (k, v) ∈ optField k' f o ↔ ∃ x, o = some x ∧ k = k' ∧ v = f x := by
  cases o <;> simp [optField]

theorem exists_val_iff {α : Type} (f : α → JVal) (o : Option α) :
    (∃ v x, o = some x ∧ v = f x) ↔ ¬o = none := by
  cases o <;> simp

theorem bool_some_iff (o : Option Bool) : (o = some false ∨ o = some true) ↔ ¬o = none := by
  cases o with
  | none => simp
  | some b => cases b <;> simp

theorem exists_mem_optField {α : Type} (k k' : Str) (f : α → JVal) (o : Option α) :
    (∃ v, (k, v) ∈ optField k' f o) ↔ (k = k' ∧ o ≠ none) := by
  cases o <;> simp [optField]

theorem forall_mem_optField {α : Type} (k' : Str) (f : α → JVal) (o : Option α)
    (P : Str × JVal → Prop) :
    (∀ kv ∈ optField k' f o, P kv) ↔ (∀ x, o = some x → P (k', f x)) := by
  cases o <;> simp [optField]

theorem exists_mem_start_patch (p : GCal.UpdateEventInput) (ex : GCal.GEvent) (k : Str) :
    (∃ v, (k, v) ∈ GCal.start_patch p ex) ↔
      (k = "start".data ∧ truthy p.start_datetime = true) := by
  cases hsd : truthy p.start_datetime <;> cases htime : ex.time <;>
    simp [GCal.start_patch, hsd, htime]

theorem exists_mem_end_patch (p : GCal.UpdateEventInput) (ex : GCal.GEvent) (k : Str) :
    (∃ v, (k, v) ∈ GCal.end_patch p ex) ↔
      (k = "end".data ∧ truthy p.end_datetime = true) := by
  cases hed : truthy p.end_datetime <;> cases htime : ex.time <;>
    simp [GCal.end_patch, hed, htime]

/-- Claim C4: for every update-tool invocation, the outbound partial-update body
contains exactly the fields the caller explicitly set and no others: unset optional
fields are omitted (never sent as null), a request setting only the due date produces
a body with exactly that field, and the issued PUT request carries exactly the built
field dictionary. For the calendar adapter, start/end entries appear exactly when the
corresponding datetime argument is provided (the timezone argument only refines their
values). -/
theorem claim_C4_partial_update :
    (∀ p : Asana.UpdateTaskInput,
      ((∃ v, ("name".data, v) ∈ Asana.update_task_fields p) ↔ p.name ≠ none) ∧
      ((∃ v, ("notes".data, v) ∈ Asana.update_task_fields p) ↔ p.notes ≠ none) ∧
      ((∃ v, ("assignee".data, v) ∈ Asana.update_task_fields p) ↔ p.assignee ≠ none) ∧
      ((∃ v, ("due_on".data, v) ∈ Asana.update_task_fields p) ↔ p.due_on ≠ none) ∧
      ((∃ v, ("completed".data, v) ∈ Asana.update_task_fields p) ↔ p.completed ≠ none) ∧
      (∀ kv ∈ Asana.update_task_fields p, kv.2 ≠ JVal.null ∧
        (kv.1 = "name".data ∨ kv.1 = "notes".data ∨ kv.1 = "assignee".data ∨
         kv.1 = "due_on".data ∨ kv.1 = "completed".data))) ∧
    (∀ gid d : Str,
      Asana.update_task_fields ⟨gid, none, none, none, some d, none⟩ =
        [("due_on".data, JVal.str d)]) ∧
    (∀ (p : Asana.UpdateTaskInput) (token : Option Str)
        (fetch : Except PyException Asana.AsanaTask),
      Asana.update_task_fields p ≠ [] → truthy token = true →
      (Asana.asana_update_task_run p token fetch).2 =
        [⟨"PUT".data, "tasks/".data ++ p.task_gid,
          some (.obj [("data".data, .obj (Asana.update_task_fields p))])⟩]) ∧
    (∀ (p : GCal.UpdateEventInput) (existing : GCal.GEvent),
      ((∃ v, ("summary".data, v) ∈ GCal.patch_data p existing) ↔ p.summary ≠ none) ∧
      ((∃ v, ("description".data, v) ∈ GCal.patch_data p existing) ↔ p.description ≠ none) ∧
      ((∃ v, ("location".data, v) ∈ GCal.patch_data p existing) ↔ p.location ≠ none) ∧
      ((∃ v, ("status".data, v) ∈ GCal.patch_data p existing) ↔ p.status ≠ none) ∧
      ((∃ v, ("start".data, v) ∈ GCal.patch_data p existing) ↔
        truthy p.start_datetime = true) ∧
      ((∃ v, ("end".data, v) ∈ GCal.patch_data p existing) ↔
        truthy p.end_datetime = true) ∧
      (∀ kv ∈ GCal.patch_data p existing, kv.2 ≠ JVal.null ∧
        (kv.1 = "summary".data ∨ kv.1 = "description".data ∨ kv.1 = "location".data ∨
         kv.1 = "status".data ∨ kv.1 = "start".data ∨ kv.1 = "end".data))) := by
  refine ⟨?_, ?_, ?_, ?_⟩
  · intro p
    refine ⟨?_, ?_, ?_, ?_, ?_, ?entries⟩
    case entries =>
      intro kv hkv
      obtain ⟨a, b⟩ := kv
      simp only [Asana.update_task_fields, List.mem_append, mem_optField] at hkv
      rcases hkv with (((⟨x, hx, rfl, rfl⟩ | ⟨x, hx, rfl, rfl⟩) | ⟨x, hx, rfl, rfl⟩) |
        ⟨x, hx, rfl, rfl⟩) | ⟨x, hx, rfl, rfl⟩ <;> simp
    all_goals
      simp [Asana.update_task_fields, List.mem_append, exists_or, exists_mem_optField,
        mem_optField, exists_val_iff, bool_some_iff]
  · intro gid d
    rfl
  · intro p token fetch hne htok
    have hni : (Asana.update_task_fields p).isEmpty = false := by
      cases h : Asana.update_task_fields p with
      | nil => exact absurd h hne
      | cons a t => rfl
    cases fetch <;> simp [Asana.asana_update_task_run, hni, htok]
  · intro p existing
    refine ⟨?_, ?_, ?_, ?_, ?_, ?_, ?entries⟩
    case entries =>
      intro kv hkv
      obtain ⟨a, b⟩ := kv
      simp only [GCal.patch_data, GCal.base_patch, List.mem_append, mem_optField] at hkv
      rcases hkv with ((((⟨x, hx, rfl, rfl⟩ | ⟨x, hx, rfl, rfl⟩) | ⟨x, hx, rfl, rfl⟩) |
          ⟨x, hx, rfl, rfl⟩) | hs) | he
      · simp
      · simp
      · simp
      · simp
      · cases hsd : truthy p.start_datetime with
        | false => simp [GCal.start_patch, hsd] at hs
        | true =>
          cases htime : existing.time <;> simp [GCal.start_patch, hsd, htime] at hs <;>
            obtain ⟨rfl, rfl⟩ := hs <;> simp
      · cases hed : truthy p.end_datetime with
        | false => simp [GCal.end_patch, hed] at he
        | true =>
          cases htime : existing.time <;> simp [GCal.end_patch, hed, htime] at he <;>
            obtain ⟨rfl, rfl⟩ := he <;> simp
    all_goals
      simp [GCal.patch_data, GCal.base_patch, List.mem_append, exists_or,
        exists_mem_optField, mem_optField, exists_val_iff,
        exists_mem_start_patch, exists_mem_end_patch]

/-- Witness for C4: a request setting only the due date produces a body with exactly
that field, and the issued PUT request carries exactly `data: {due_on: ...}`. -/
theorem claim_C4_witness :
    Asana.update_task_fields wDueOnlyInput = [("due_on".data, JVal.str "2024-01-31".data)] ∧
    Asana.update_task_fields wDueOnlyInput ≠ [] ∧
    truthy (some "t".data) = true ∧
    (Asana.asana_update_task_run wDueOnlyInput (some "t".data) (.error .timeoutException)).2 =
      [⟨"PUT".data, "tasks/".data ++ wDueOnlyInput.task_gid,
        some (.obj [("data".data, .obj (Asana.update_task_fields wDueOnlyInput))])⟩] :=
  ⟨claim_C4_partial_update.2.1 "42".data "2024-01-31".data,
   by simp [Asana.update_task_fields, wDueOnlyInput, optField],
   rfl,
   claim_C4_partial_update.2.2.1 wDueOnlyInput (some "t".data) (.error .timeoutException)
     (by simp [Asana.update_task_fields, wDueOnlyInput, optField]) rfl⟩

/-- Claim C5: the error translator is a total mapping: every exception becomes one of
the nine fixed user-facing error shapes and nothing propagates past the tool boundary
(an oracle-thrown exception surfaces exactly as the translated string); in particular
HTTP 404 yields the fixed not-found message, HTTP 429 the fixed rate-limit message, a
timeout the fixed timeout message, and a missing credential yields a configuration
error with no HTTP request issued. -/
theorem claim_C5_error_translation :
    (∀ e, asanaErrorShape (Asana.handle_api_error e)) ∧
    (∀ e, gcalErrorShape (GCal.handle_api_error e)) ∧
    (∀ b, Asana.handle_api_error (.httpStatusError 404 b) =
      "Error: Resource not found. Please check the ID.".data) ∧
    (∀ b, Asana.handle_api_error (.httpStatusError 429 b) =
      "Error: Rate limit exceeded. Please wait before making more requests.".data) ∧
    (Asana.handle_api_error .timeoutException =
      "Error: Request timed out. Please try again.".data) ∧
    (∀ b, GCal.handle_api_error (.httpStatusError 404 b) =
      "Error: Event or calendar not found. Please check the ID.".data) ∧
    (∀ b, GCal.handle_api_error (.httpStatusError 429 b) =
      "Error: Rate limit exceeded. Please wait before making more requests.".data) ∧
    (GCal.handle_api_error .timeoutException =
      "Error: Request timed out. Please try again.".data) ∧
    (∀ (p : Asana.ListTasksInput) (token : Option Str) (e : PyException),
      truthy token = true →
      Asana.asana_list_tasks_run p token (.error e) =
        (Asana.handle_api_error e, [⟨"GET".data, Asana.list_tasks_endpoint p, none⟩])) ∧
    (∀ (p : Asana.ListTasksInput) (token : Option Str)
        (fetch : Except PyException (List Asana.AsanaTask)),
      truthy token = false →
      Asana.asana_list_tasks_run p token fetch =
        ("Configuration Error: ".data ++ Asana.tokenErrorMsg, [])) ∧
    (∀ (p : GCal.ListEventsInput) (now : GCal.PyDateTime) (token : Option Str)
        (fetch : Except PyException (List GCal.GEvent)) (ab : Str × Str),
      GCal.get_time_range_bounds p.time_range now p.start_date p.end_date = .ok ab →
      truthy token = false →
      GCal.gcal_list_events_run p now token fetch =
        ("Configuration Error: ".data ++ GCal.tokenErrorMsg, [])) := by
  refine ⟨?_, ?_, fun b => rfl, fun b => rfl, rfl, fun b => rfl, fun b => rfl, rfl,
    ?_, ?_, ?_⟩
  · intro e
    cases e with
    | valueError m => exact Or.inl ⟨m, rfl⟩
    | timeoutException =>
      exact Or.inr (Or.inr (Or.inr (Or.inr (Or.inr (Or.inr (Or.inr (Or.inl rfl)))))))
    | otherExc n m =>
      exact Or.inr (Or.inr (Or.inr (Or.inr (Or.inr (Or.inr (Or.inr (Or.inr ⟨n, m, rfl⟩)))))))
    | httpStatusError s b =>
      simp only [Asana.handle_api_error, asanaErrorShape]
      split_ifs
      · exact Or.inr (Or.inl ⟨b, rfl⟩)
      · exact Or.inr (Or.inr (Or.inl rfl))
      · exact Or.inr (Or.inr (Or.inr (Or.inl rfl)))
      · exact Or.inr (Or.inr (Or.inr (Or.inr (Or.inl rfl))))
      · exact Or.inr (Or.inr (Or.inr (Or.inr (Or.inr (Or.inl rfl)))))
      · exact Or.inr (Or.inr (Or.inr (Or.inr (Or.inr (Or.inr (Or.inl ⟨s, b, rfl⟩))))))
  · intro e
    cases e with
    | valueError m => exact Or.inl ⟨m, rfl⟩
    | timeoutException =>
      exact Or.inr (Or.inr (Or.inr (Or.inr (Or.inr (Or.inr (Or.inr (Or.inl rfl)))))))
    | otherExc n m =>
      exact Or.inr (Or.inr (Or.inr (Or.inr (Or.inr (Or.inr (Or.inr (Or.inr ⟨n, m, rfl⟩)))))))
    | httpStatusError s b =>
      simp only [GCal.handle_api_error, gcalErrorShape]
      split_ifs
      · exact Or.inr (Or.inl ⟨b, rfl⟩)
      · exact Or.inr (Or.inr (Or.inl rfl))
      · exact Or.inr (Or.inr (Or.inr (Or.inl rfl)))
      · exact Or.inr (Or.inr (Or.inr (Or.inr (Or.inl rfl))))
      · exact Or.inr (Or.inr (Or.inr (Or.inr (Or.inr (Or.inl rfl)))))
      · exact Or.inr (Or.inr (Or.inr (Or.inr (Or.inr (Or.inr (Or.inl ⟨s, b, rfl⟩))))))
  · intro p token e htok
    simp [Asana.asana_list_tasks_run, htok]
  · intro p token fetch htok
    simp [Asana.asana_list_tasks_run, htok, Asana.handle_api_error]
  · intro p now token fetch ab hb htok
    simp [GCal.gcal_list_events_run, hb, htok, GCal.handle_api_error]

/-- Witness for C5 at concrete exceptions and concrete missing-credential invocations. -/
theorem claim_C5_witness :
    asanaErrorShape (Asana.handle_api_error (.otherExc "RuntimeError".data "boom".data)) ∧
    gcalErrorShape (GCal.handle_api_error (.httpStatusError 500 "oops".data)) ∧
    Asana.handle_api_error (.httpStatusError 404 "nf".data) =
      "Error: Resource not found. Please check the ID.".data ∧
    Asana.asana_list_tasks_run wListTasksInput (some "t".data) (.error .timeoutException) =
      (Asana.handle_api_error .timeoutException,
       [⟨"GET".data, Asana.list_tasks_endpoint wListTasksInput, none⟩]) ∧
    Asana.asana_list_tasks_run wListTasksInput none (.ok []) =
      ("Configuration Error: ".data ++ Asana.tokenErrorMsg, []) ∧
    GCal.gcal_list_events_run wListEventsInput wDecember none (.ok []) =
      ("Configuration Error: ".data ++ GCal.tokenErrorMsg, []) :=
  ⟨claim_C5_error_translation.1 (.otherExc "RuntimeError".data "boom".data),
   claim_C5_error_translation.2.1 (.httpStatusError 500 "oops".data),
   claim_C5_error_translation.2.2.1 "nf".data,
   claim_C5_error_translation.2.2.2.2.2.2.2.2.1 wListTasksInput (some "t".data)
     .timeoutException rfl,
   claim_C5_error_translation.2.2.2.2.2.2.2.2.2.1 wListTasksInput none (.ok []) rfl,
   claim_C5_error_translation.2.2.2.2.2.2.2.2.2.2 wListEventsInput wDecember none (.ok [])
     (GCal.isoformat ⟨2024, 12, 15, 0, 0, 0, 0, some 0⟩,
      GCal.isoformat ⟨2024, 12, 22, 0, 0, 0, 0, some 0⟩) rfl rfl⟩

theorem geocode_req_of_none (location : Str) (fetch : Except PyException Places.GeocodeResp)
    (h : Places.coordShortCircuit location = none) :
    (Places.geocode_location location fetch).2 = [⟨"GET".data, "geocode/json".data, none⟩] := by
  cases fetch with
  | error e => simp [Places.geocode_location, h]
  | ok data =>
    simp only [Places.geocode_location, h]
    split_ifs <;> rfl

/-- Claim C6: a location string splitting into exactly two comma-separated components
that parse as floats within latitude [-90, 90] and longitude [-180, 180] is resolved
to those literal coordinates with no HTTP request; any other location string falls
through to exactly one geocoding request; the short-circuit is attempted before any
network call (the request trace is empty whenever the short-circuit succeeds). -/
theorem claim_C6_coordinate_short_circuit :
    (∀ (location a b : Str) (lat lng : ℚ) (fetch : Except PyException Places.GeocodeResp),
      pySplit ',' location = [a, b] →
      Places.pyFloat (pyStrip a) = some lat →
      Places.pyFloat (pyStrip b) = some lng →
      -90 ≤ lat → lat ≤ 90 → -180 ≤ lng → lng ≤ 180 →
      Places.geocode_location location fetch = (.ok (some ⟨lat, lng⟩), [])) ∧
    (∀ (location : Str) (fetch : Except PyException Places.GeocodeResp),
      Places.coordShortCircuit location = none →
      (Places.geocode_location location fetch).2 =
        [⟨"GET".data, "geocode/json".data, none⟩]) ∧
    (∀ (location : Str) (fetch : Except PyException Places.GeocodeResp) (c : Places.GeoCoords),
      Places.coordShortCircuit location = some c →
      Places.geocode_location location fetch = (.ok (some c), [])) := by
  refine ⟨?_, geocode_req_of_none, ?_⟩
  · intro location a b lat lng fetch hsplit hfa hfb h1 h2 h3 h4
    have hc : location.contains ',' = true := pySplit_contains ',' location a b [] hsplit
    have hm : ',' ∈ location := pySplit_mem ',' location a b [] hsplit
    have hsc : Places.coordShortCircuit location = some ⟨lat, lng⟩ := by
      simp [Places.coordShortCircuit, hc, hm, hsplit, hfa, hfb, h1, h2, h3, h4]
    simp [Places.geocode_location, hsc]
  · intro location fetch c hsc
    simp [Places.geocode_location, hsc]

/-- Witness for C6: the string "32.0809,-81.0912" is used directly as coordinates and
no request is issued. -/
theorem claim_C6_witness :
    Places.geocode_location "32.0809,-81.0912".data (.error .timeoutException) =
      (.ok (some ⟨mkRat 320809 10000, mkRat (-810912) 10000⟩), []) :=
  claim_C6_coordinate_short_circuit.1 "32.0809,-81.0912".data "32.0809".data
    "-81.0912".data (mkRat 320809 10000) (mkRat (-810912) 10000) (.error .timeoutException)
    (by decide) (by decide) (by decide) (by decide) (by decide) (by decide) (by decide)

/-- Claim C7: the nearby-search result list is sorted ascending by the computed
distance key (missing distance compares as positive infinity), the sorted list is a
permutation of the computed places, and every place lacking a computable distance
comes after all places that have one. -/
theorem claim_C7_distance_sort :
    ∀ l : List GMaps.PlaceInfo,
      List.Perm (GMaps.sortPlacesByDistance l) l ∧
      (GMaps.sortPlacesByDistance l).Pairwise
        (fun a b => GMaps.distKey a ≤ GMaps.distKey b) ∧
      (GMaps.sortPlacesByDistance l).Pairwise
        (fun a b => a.distance_miles = none → b.distance_miles = none) := by
  intro l
  refine ⟨List.mergeSort_perm l _, sortPlaces_pairwise l, ?_⟩
  refine (sortPlaces_pairwise l).imp ?_
  intro a b hle hna
  have ha : GMaps.distKey a = ⊤ := (distKey_top_iff a).mpr hna
  rw [ha] at hle
  exact (distKey_top_iff b).mp (top_le_iff.mp hle)
